import Mathlib

/-!
Verification development for the tennis/Pong game repository.

The simulation core lives in src/main.js (class TennisGame); the score
backend lives in the shared database module (updatePlayerScore, upsertPlayer).
Numbers are modelled as exact rationals; every call to the host random
generator is modelled as an explicit rational parameter (intended range
0 ≤ r < 1, stated as a hypothesis where a theorem needs it).  Render-only
state (confetti particles, the player sprite, DOM button state, audio) is
not part of the model: it is never read back by the simulation logic.
-/

namespace TennisGame

/-- JS Math.sign: 1 for positive, -1 for negative, 0 for zero. -/
def jsSign (x : ℚ) : ℚ :=
  if 0 < x then 1 else if x < 0 then -1 else 0

/-- JS `x || d` on numbers: d when x is 0, else x. -/
def orDefault (x d : ℚ) : ℚ :=
  if x = 0 then d else x

/-- One difficulty profile from difficultySettings (src/main.js:51-97).
ballSpeedX / ballSpeedY flatten the nested ballSpeed {x, y} object. -/
structure Difficulty where
  ballSpeedX : ℚ
  ballSpeedY : ℚ
  ballMaxSpeed : ℚ
  ballSpeedIncrease : ℚ
  aiSpeed : ℚ
  aiReaction : ℚ
  aiDeadZone : ℚ
  paddleYVariation : ℚ
  aiVerticalReaction : ℚ
  aiVerticalDeadZone : ℚ
  aiSmoothingFactor : ℚ
  aiEasingFactor : ℚ
  aiMaxDistanceFromNet : ℚ
deriving DecidableEq, Repr

/-- difficultySettings.beginner (src/main.js:52-66). -/
def beginner : Difficulty :=
  { ballSpeedX := 1, ballSpeedY := 4/5, ballMaxSpeed := 5/2, ballSpeedIncrease := 201/200,
    aiSpeed := 2, aiReaction := 1/2, aiDeadZone := 30, paddleYVariation := 4,
    aiVerticalReaction := 3/10, aiVerticalDeadZone := 40, aiSmoothingFactor := 3/20,
    aiEasingFactor := 3/100, aiMaxDistanceFromNet := 120 }

/-- difficultySettings.advanced (src/main.js:67-81). -/
def advanced : Difficulty :=
  { ballSpeedX := 3/2, ballSpeedY := 6/5, ballMaxSpeed := 7/2, ballSpeedIncrease := 101/100,
    aiSpeed := 3, aiReaction := 7/10, aiDeadZone := 20, paddleYVariation := 6,
    aiVerticalReaction := 1/2, aiVerticalDeadZone := 30, aiSmoothingFactor := 1/4,
    aiEasingFactor := 1/20, aiMaxDistanceFromNet := 100 }

/-- difficultySettings.expert (src/main.js:82-96). -/
def expert : Difficulty :=
  { ballSpeedX := 2, ballSpeedY := 9/5, ballMaxSpeed := 9/2, ballSpeedIncrease := 51/50,
    aiSpeed := 9/2, aiReaction := 9/10, aiDeadZone := 10, paddleYVariation := 8,
    aiVerticalReaction := 7/10, aiVerticalDeadZone := 20, aiSmoothingFactor := 7/20,
    aiEasingFactor := 7/100, aiMaxDistanceFromNet := 80 }

/-- Ball state (src/main.js:150-158). -/
structure Ball where
  x : ℚ
  y : ℚ
  width : ℚ
  height : ℚ
  speedX : ℚ
  speedY : ℚ
  maxSpeed : ℚ
deriving DecidableEq, Repr

/-- Paddle state (src/main.js:132-133). -/
structure Paddle where
  x : ℚ
  y : ℚ
  width : ℚ
  height : ℚ
  speed : ℚ
deriving DecidableEq, Repr

/-- Net line y coordinate: this.netPosition = this.height / 2 (src/main.js:162). -/
def netPosition (h : ℚ) : ℚ := h / 2

/-- courtBounds.left = 80 (src/main.js:168). -/
def cbLeft : ℚ := 80

/-- courtBounds.right = width - 80 (src/main.js:169). -/
def cbRight (w : ℚ) : ℚ := w - 80

/-- courtBounds.top = 50 (src/main.js:170). -/
def cbTop : ℚ := 50

/-- courtBounds.bottom = height - 50 (src/main.js:171). -/
def cbBottom (h : ℚ) : ℚ := h - 50

/-- Scoring side: the human player (bottom) or the Copilot AI (top). -/
inductive Who | player | copilot
deriving DecidableEq, Repr

/-- animationState values (src/main.js:112). -/
inductive AnimKind | noAnim | victory | defeat
deriving DecidableEq, Repr

/-- this.animationDuration = 180 frames (src/main.js:114). -/
def animationDuration : ℕ := 180

/-- Pressed/released key map for the four directional keys. -/
structure Keys where
  left : Bool
  right : Bool
  up : Bool
  down : Bool
deriving DecidableEq, Repr

/-- The simulation state of class TennisGame that the game logic reads back.
Render-only fields (confetti, player sprite, canvas) are omitted. -/
structure GState where
  ball : Ball
  paddle1 : Paddle
  paddle2 : Paddle
  aiTargetX : ℚ
  aiTargetY : ℚ
  copilotScore : ℕ
  playerScore : ℕ
  winningScore : ℕ
  gameEnded : Bool
  winner : Option Who
  isScoreDelay : Bool
  lastScorer : Option Who
  animKind : AnimKind
  animFrame : ℕ
  fadeOpacity : ℚ
  gameRunning : Bool
  gameStarted : Bool
  isPaused : Bool
deriving DecidableEq, Repr

/-- hitBallWithPaddle (src/main.js:646-732).  rX and rY are the two
Math.random() draws for the jitter terms; the audio side effect is dropped. -/
def hitBallWithPaddle (w h : ℚ) (set : Difficulty) (isTopPaddle : Bool)
    (paddle opponent : Paddle) (rX rY : ℚ) (ball : Ball) : Ball :=
  let hitPos := (ball.x + ball.width / 2 - paddle.x) / paddle.width
  let opponentCenterX := opponent.x + opponent.width / 2
  let courtLeftSafe := cbLeft + 40
  let courtRightSafe := cbRight w - 40
  let safeTargetWidth := courtRightSafe - courtLeftSafe
  let baseTargetX := courtLeftSafe + hitPos * safeTargetWidth
  let targetX :=
    if opponentCenterX < w * (3/10) then max baseTargetX (w * (2/5))
    else if w * (7/10) < opponentCenterX then min baseTargetX (w * (3/5))
    else baseTargetX
  let ballCurrentX := ball.x + ball.width / 2
  let horizontalDistance := targetX - ballCurrentX
  let verticalDistance :=
    if isTopPaddle then (netPosition h + 50) - ball.y else ball.y - (netPosition h - 50)
  let trajectoryTime := max 20 |verticalDistance / 2|
  let tsx0 := horizontalDistance / trajectoryTime
  let tsy0 :=
    if isTopPaddle then |verticalDistance / trajectoryTime|
    else -|verticalDistance / trajectoryTime|
  let tsx1 := max (-4) (min 4 tsx0)
  let minVerticalSpeed : ℚ := 6/5
  let maxVerticalSpeed := set.ballMaxSpeed * (4/5)
  let tsy1 :=
    if isTopPaddle then max minVerticalSpeed (min maxVerticalSpeed |tsy0|)
    else -(max minVerticalSpeed (min maxVerticalSpeed |tsy0|))
  let randomFactorX := (rX - 1/2) * (4/5)
  let randomFactorY := (rY - 1/2) * (3/5)
  let tsx2 := tsx1 + randomFactorX
  let tsy2 := tsy1 + randomFactorY * (if isTopPaddle then 1 else -1)
  let tsx3 := max (-4) (min 4 tsx2)
  let tsy3 :=
    if isTopPaddle then max (4/5) (min set.ballMaxSpeed tsy2)
    else max (-set.ballMaxSpeed) (min (-(4/5)) tsy2)
  { ball with speedX := tsx3, speedY := tsy3 }

/-- resetBallSpeed (src/main.js:616-640).  q1 and q2 are the direction draws
(compared against 0.5), r1 and r2 the additive speed draws. -/
def resetBallSpeed (set : Difficulty) (q1 q2 r1 r2 : ℚ) (s : GState) : GState :=
  let hd : ℚ := if 1/2 < q1 then 1 else -1
  let vd : ℚ := if 1/2 < q2 then 1 else -1
  let sx0 := max (-3) (min 3 ((set.ballSpeedX + r1 * (1/2)) * hd))
  let sy0 := (set.ballSpeedY + r2 * (1/2)) * vd
  let sx1 := if |sx0| < 4/5 then 4/5 * jsSign (orDefault sx0 1) else sx0
  let sy1 := if |sy0| < 4/5 then 4/5 * jsSign (orDefault sy0 1) else sy0
  { s with ball := { s.ball with speedX := sx1, speedY := sy1, maxSpeed := set.ballMaxSpeed } }

/-- applyDifficultySettings (src/main.js:603-614): AI paddle speed, ball max
speed, then resetBallSpeed. -/
def applyDifficultySettings (set : Difficulty) (q1 q2 r1 r2 : ℚ) (s : GState) : GState :=
  let s1 := { s with paddle1 := { s.paddle1 with speed := set.aiSpeed },
                     ball := { s.ball with maxSpeed := set.ballMaxSpeed } }
  resetBallSpeed set q1 q2 r1 r2 s1

/-- resetGame (src/main.js:883-920).  a1-a4 feed the direct resetBallSpeed
call, b1-b4 the one inside applyDifficultySettings.  Note the source never
clears isScoreDelay or lastScorer here. -/
def resetGame (w h : ℚ) (set : Difficulty) (a1 a2 a3 a4 b1 b2 b3 b4 : ℚ) (s : GState) : GState :=
  let s1 := { s with ball := { s.ball with x := w/2 - s.ball.width/2,
                                           y := h/2 - s.ball.height/2 } }
  let s2 := resetBallSpeed set a1 a2 a3 a4 s1
  let s3 := { s2 with paddle1 := { s2.paddle1 with x := w/2 - s2.paddle1.width/2 },
                      paddle2 := { s2.paddle2 with x := w/2 - s2.paddle2.width/2 } }
  let s4 := { s3 with aiTargetX := s3.paddle1.x, aiTargetY := s3.paddle1.y }
  let s5 := { s4 with copilotScore := 0, playerScore := 0, gameEnded := false, winner := none,
                      animKind := .noAnim, animFrame := 0, fadeOpacity := 1 }
  let s6 := applyDifficultySettings set b1 b2 b3 b4 s5
  { s6 with gameRunning := false, gameStarted := false, isPaused := false }

/-- triggerScoreDelay (src/main.js:737-745): records the scorer and raises the
delay flag.  The deferred setTimeout callback is modelled by applying
restartAfterScore later; no cancellation or epoch guard exists in the source. -/
def triggerScoreDelay (who : Who) (s : GState) : GState :=
  { s with isScoreDelay := true, lastScorer := some who }

/-- restartAfterScore (src/main.js:747-787).  q is the direction draw, r1 and
r2 the additive draws. -/
def restartAfterScore (w h : ℚ) (set : Difficulty) (q r1 r2 : ℚ) (s : GState) : GState :=
  if s.gameEnded = true then { s with isScoreDelay := false }
  else
    let s1 := { s with ball := { s.ball with x := w/2, y := h/2 } }
    let baseSpeedX := set.ballSpeedX
    let baseSpeedY := set.ballSpeedY
    let safeHorizontalSpeed :=
      max (-3) (min 3 ((baseSpeedX + r1 * (1/2)) * (if 1/2 < q then 1 else -1)))
    let sy := if s1.lastScorer = some Who.player then -(baseSpeedY + r2 * (1/2))
              else baseSpeedY + r2 * (1/2)
    let sx1 := if |safeHorizontalSpeed| < 4/5 then 4/5 * jsSign safeHorizontalSpeed
               else safeHorizontalSpeed
    let sy1 := if |sy| < 4/5 then 4/5 * jsSign sy else sy
    { s1 with ball := { s1.ball with speedX := sx1, speedY := sy1 }, isScoreDelay := false }

/-- checkWinCondition (src/main.js:791-808); initConfetti is render-only. -/
def checkWinCondition (s : GState) : GState :=
  if s.winningScore ≤ s.playerScore then
    { s with gameEnded := true, winner := some .player, gameRunning := false,
             animKind := .victory, animFrame := 0 }
  else if s.winningScore ≤ s.copilotScore then
    { s with gameEnded := true, winner := some .copilot, gameRunning := false,
             animKind := .defeat, animFrame := 0 }
  else s

/-- startGame (src/main.js:842-847). -/
def startGame (s : GState) : GState :=
  { s with gameStarted := true, gameRunning := true, isPaused := false }

/-- togglePause (src/main.js:849-855): isPaused flips, then gameRunning is set
to the negation of the new isPaused, hence to the old isPaused. -/
def togglePause (s : GState) : GState :=
  if s.gameStarted = false then s
  else { s with isPaused := !s.isPaused, gameRunning := s.isPaused }

/-- The animation block at the head of update (src/main.js:923-938); confetti
particle motion is render-only and not modelled. -/
def updateAnimation (s : GState) : GState :=
  match s.animKind with
  | .victory =>
      let f := s.animFrame + 1
      if animationDuration ≤ f then { s with animFrame := f, animKind := .noAnim }
      else { s with animFrame := f }
  | .defeat =>
      let f := s.animFrame + 1
      let fade := max (3/10) (1 - ((f : ℚ) / (animationDuration : ℚ)) * (7/10))
      if animationDuration ≤ f then { s with animFrame := f, fadeOpacity := 1, animKind := .noAnim }
      else { s with animFrame := f, fadeOpacity := fade }
  | .noAnim => s

/-- The player paddle input block of update (src/main.js:942-960).  The four
checks run in source order, each reading the position left by the previous. -/
def movePlayerPaddle (w h : ℚ) (keys : Keys) (s : GState) : GState :=
  let canvasRight := w - s.paddle2.width
  let courtTop := netPosition h + 10
  let courtBottom := cbBottom h - s.paddle2.height
  let x1 := if keys.left = true ∧ 0 < s.paddle2.x then s.paddle2.x - s.paddle2.speed
            else s.paddle2.x
  let x2 := if keys.right = true ∧ x1 < canvasRight then x1 + s.paddle2.speed else x1
  let y1 := if keys.up = true ∧ courtTop < s.paddle2.y then s.paddle2.y - s.paddle2.speed
            else s.paddle2.y
  let y2 := if keys.down = true ∧ y1 < courtBottom then y1 + s.paddle2.speed else y1
  { s with paddle2 := { s.paddle2 with x := x2, y := y2 } }

/-- The AI controller block of update (src/main.js:965-1023). -/
def moveAIPaddle (w h : ℚ) (set : Difficulty) (s : GState) : GState :=
  let aiMinY := cbTop
  let aiMaxY := netPosition h - set.aiMaxDistanceFromNet
  let ballCenterX := s.ball.x + s.ball.width / 2
  let ballCenterY := s.ball.y + s.ball.height / 2
  let targetX :=
    if 1 < |s.ball.speedX| then (s.ball.x + s.ball.speedX * 8) - s.paddle1.width / 2
    else ballCenterX - s.paddle1.width / 2
  let targetY :=
    if s.ball.speedY < 0 ∧ ballCenterY < netPosition h then
      min (max aiMinY (ballCenterY - 60)) aiMaxY
    else aiMinY + 40
  let tX := s.aiTargetX + (targetX - s.aiTargetX) * set.aiEasingFactor
  let tY := s.aiTargetY + (targetY - s.aiTargetY) * set.aiEasingFactor * (7/10)
  let tX1 := max 0 (min (w - s.paddle1.width) tX)
  let tY1 := max aiMinY (min aiMaxY tY)
  let xDiff := tX1 - s.paddle1.x
  let yDiff := tY1 - s.paddle1.y
  let px := if 2 < |xDiff| then s.paddle1.x + xDiff * set.aiSmoothingFactor * set.aiReaction
            else s.paddle1.x
  let py := if 3 < |yDiff| then
              s.paddle1.y + yDiff * set.aiSmoothingFactor * set.aiVerticalReaction * (4/5)
            else s.paddle1.y
  let px1 := max 0 (min (w - s.paddle1.width) px)
  let py1 := max aiMinY (min aiMaxY py)
  { s with aiTargetX := tX1, aiTargetY := tY1,
           paddle1 := { s.paddle1 with x := px1, y := py1 } }

/-- Euler step of the ball (src/main.js:1026-1027). -/
def moveBall (s : GState) : GState :=
  { s with ball := { s.ball with x := s.ball.x + s.ball.speedX,
                                 y := s.ball.y + s.ball.speedY } }

/-- The out-of-bounds scoring block of update (src/main.js:1029-1069),
including the side-exit heuristic; updateScoreDisplay is DOM-only. -/
def scoreOutOfBounds (w h : ℚ) (s : GState) : GState :=
  if s.ball.y ≤ -20 then
    let s1 := { s with playerScore := s.playerScore + 1 }
    let s2 := checkWinCondition s1
    if s2.gameEnded = false then triggerScoreDelay .player s2 else s2
  else if h + 20 ≤ s.ball.y then
    let s1 := { s with copilotScore := s.copilotScore + 1 }
    let s2 := checkWinCondition s1
    if s2.gameEnded = false then triggerScoreDelay .copilot s2 else s2
  else if s.ball.x ≤ -20 ∨ w + 20 ≤ s.ball.x then
    if |s.ball.speedX| < |s.ball.speedY| then
      if s.ball.y < h / 2 then
        let s1 := { s with playerScore := s.playerScore + 1 }
        let s2 := if s1.gameEnded = false then triggerScoreDelay .player s1 else s1
        checkWinCondition s2
      else
        let s1 := { s with copilotScore := s.copilotScore + 1 }
        let s2 := if s1.gameEnded = false then triggerScoreDelay .copilot s1 else s1
        checkWinCondition s2
    else s
  else s

/-- Axis-aligned box used by checkCollision. -/
structure Rect where
  x : ℚ
  y : ℚ
  width : ℚ
  height : ℚ
deriving DecidableEq, Repr

/-- Bounding box of the ball (src/main.js:1072-1077). -/
def Ball.rect (b : Ball) : Rect := ⟨b.x, b.y, b.width, b.height⟩

/-- Bounding box of a paddle. -/
def Paddle.rect (p : Paddle) : Rect := ⟨p.x, p.y, p.width, p.height⟩

/-- checkCollision (src/main.js:1130-1135). -/
def checkCollision (r1 r2 : Rect) : Prop :=
  r1.x < r2.x + r2.width ∧ r2.x < r1.x + r1.width ∧
  r1.y < r2.y + r2.height ∧ r2.y < r1.y + r1.height

instance (r1 r2 : Rect) : Decidable (checkCollision r1 r2) := by
  unfold checkCollision; infer_instance

/-- The paddle collision block of update (src/main.js:1071-1086): top paddle
checked first, else-if on the bottom paddle. -/
def handleCollisions (w h : ℚ) (set : Difficulty) (rX rY : ℚ) (s : GState) : GState :=
  if checkCollision s.ball.rect s.paddle1.rect then
    { s with ball := hitBallWithPaddle w h set true s.paddle1 s.paddle2 rX rY s.ball }
  else if checkCollision s.ball.rect s.paddle2.rect then
    { s with ball := hitBallWithPaddle w h set false s.paddle2 s.paddle1 rX rY s.ball }
  else s

/-- update (src/main.js:922-1087): animation block, early return unless
running and not in scoring delay, then input, AI, ball motion, out-of-bounds
scoring and paddle collisions in source order. -/
def update (w h : ℚ) (set : Difficulty) (keys : Keys) (rX rY : ℚ) (s : GState) : GState :=
  let s0 := updateAnimation s
  if s0.gameRunning = false ∨ s0.isScoreDelay = true then s0
  else
    handleCollisions w h set rX rY
      (scoreOutOfBounds w h (moveBall (moveAIPaddle w h set (movePlayerPaddle w h keys s0))))

/-! Backend score API, modelled from the shared database module
(src/unnamed/part_002).  A database is a list of player rows plus a list of
GameScores history rows; SQL NEWID() draws are explicit parameters.  Only
valid (TRY_CONVERT-convertible) player ids are modelled: the HTTP handlers
reject requests without a playerId, and the invalid-GUID paths (NEWID
substitution in upsertPlayer, THROW in updatePlayerScore) concern ids outside
this model. -/

/-- Default name used when a score arrives for an unknown player
(src/unnamed/part_002:235). -/
def defaultPlayerName : String := "Player"

/-- One row of the Players table (columns read back by the handlers). -/
structure PlayerRow where
  playerId : String
  playerName : String
  currentScore : Int
  bestScore : Int
  gamesPlayed : Int
deriving DecidableEq, Repr

/-- The Players table. -/
abbrev DB := List PlayerRow

/-- One row of the GameScores history table. -/
structure GameScoreRow where
  playerId : String
  score : Int
deriving DecidableEq, Repr

/-- getPlayer (src/unnamed/part_002:180-211): the row with the given id. -/
def getPlayer (db : DB) (pid : String) : Option PlayerRow :=
  db.find? (fun r => r.playerId == pid)

/-- upsertPlayer (src/unnamed/part_002:118-178).  newId models the NEWID()
draw used when the supplied id exists under a different name: in that case a
fresh row is inserted and returned; otherwise the MERGE updates the name and
last-seen time in place (or inserts the row when the id is absent).  Returns
the new table and the selected row. -/
def upsertPlayer (db : DB) (pid name newId : String) : DB × PlayerRow :=
  match getPlayer db pid with
  | some row =>
      if row.playerName ≠ name then
        let fresh : PlayerRow := ⟨newId, name, 0, 0, 0⟩
        (fresh :: db, fresh)
      else
        let db1 := db.map fun r => if r.playerId == pid then { r with playerName := name } else r
        (db1, { row with playerName := name })
  | none =>
      let fresh : PlayerRow := ⟨pid, name, 0, 0, 0⟩
      (fresh :: db, fresh)

/-- The Players-table effect of updatePlayerScore (src/unnamed/part_002:213-266):
insert a default row when the id is unknown, then overwrite CurrentScore,
raise BestScore when the submitted score beats it, and bump GamesPlayed. -/
def updatePlayerScoreDb (db : DB) (pid : String) (score : Int) : DB :=
  let db1 := if (getPlayer db pid).isSome then db
             else ⟨pid, defaultPlayerName, 0, 0, 0⟩ :: db
  db1.map fun r =>
    if r.playerId == pid then
      { r with currentScore := score,
               bestScore := if r.bestScore < score then score else r.bestScore,
               gamesPlayed := r.gamesPlayed + 1 }
    else r

/-- updatePlayerScore (src/unnamed/part_002:213-266): table update, one
GameScores insertion, then the row is read back and returned. -/
def updatePlayerScore (db : DB) (hist : List GameScoreRow) (pid : String) (score : Int) :
    DB × List GameScoreRow × Option PlayerRow :=
  let db1 := updatePlayerScoreDb db pid score
  (db1, ⟨pid, score⟩ :: hist, getPlayer db1 pid)

/-- A sequence of score submissions for one player, folded over the table. -/
def runScores (db : DB) (pid : String) (scores : List Int) : DB :=
  scores.foldl (fun d sc => updatePlayerScoreDb d pid sc) db

/-- BestScore of a player, 0 when the row is absent (the column default). -/
def bestScoreOf (db : DB) (pid : String) : Int :=
  match getPlayer db pid with
  | some r => r.bestScore
  | none => 0

/-! Concrete states used by witnesses, counterexamples and failing-input
evaluations.  Geometry is the desktop canvas: width 600, height 800, net at
400, court bounds 80/520/50/750 (src/main.js:19-23,160-172). -/

/-- A mid-rally ball at court center with the default beginner cap. -/
def exBall : Ball :=
  { x := 300, y := 400, width := 40, height := 40, speedX := 3/2, speedY := 3/2, maxSpeed := 5/2 }

/-- The AI (top) paddle at its start position. -/
def exPaddle1 : Paddle := { x := 260, y := 20, width := 80, height := 15, speed := 2 }

/-- The player (bottom) paddle near the bottom baseline. -/
def exPaddle2 : Paddle := { x := 260, y := 745, width := 80, height := 15, speed := 5 }

/-- A running mid-game state. -/
def exState : GState :=
  { ball := exBall, paddle1 := exPaddle1, paddle2 := exPaddle2, aiTargetX := 260, aiTargetY := 20,
    copilotScore := 0, playerScore := 0, winningScore := 5, gameEnded := false, winner := none,
    isScoreDelay := false, lastScorer := none, animKind := .noAnim, animFrame := 0, fadeOpacity := 1,
    gameRunning := true, gameStarted := true, isPaused := false }

/-- No directional key pressed. -/
def keysNone : Keys := ⟨false, false, false, false⟩

/-- A ball contacting the player paddle high on its court side: the hit
geometry yields a large horizontal distance over the minimum trajectory
time, driving the horizontal speed into the fixed ±4 clamp. -/
def exBallC1 : Ball :=
  { x := 100, y := 360, width := 40, height := 40, speedX := 1, speedY := -1, maxSpeed := 5/2 }

/-- Player paddle positioned so the ball strikes its right edge. -/
def exPadC1 : Paddle := { x := 40, y := 330, width := 80, height := 15, speed := 5 }

/-- Opponent (AI) paddle centered, so no corner-avoidance bias applies. -/
def exOppC1 : Paddle := { x := 260, y := 20, width := 80, height := 15, speed := 2 }

/-- A ball whose hit geometry puts the computed target exactly at the ball
center, so the deterministic horizontal speed is 0; with a middle random
draw the jitter is 0 as well. -/
def exBallC5 : Ball :=
  { x := 280, y := 700, width := 40, height := 40, speedX := 1, speedY := 2, maxSpeed := 5/2 }

/-- Player paddle centered under the C5 ball. -/
def exPadC5 : Paddle := { x := 260, y := 690, width := 80, height := 15, speed := 5 }

/-- A state with a scoring-delay timer pending (player just scored). -/
def pendingState : GState := { exState with isScoreDelay := true, lastScorer := some .player }

/-- The game generation created by resetting while the timer is pending;
all eight random draws are 1/2. -/
def afterReset : GState :=
  resetGame 600 800 beginner (1/2) (1/2) (1/2) (1/2) (1/2) (1/2) (1/2) (1/2) pendingState

/-- An ended match (player reached the winning score); the ball froze past
the top boundary where the final point was scored, victory animation is
mid-flight. -/
def endedState : GState :=
  { exState with playerScore := 5, gameEnded := true, winner := some .player, gameRunning := false,
                 animKind := .victory, animFrame := 100,
                 ball := { exBall with x := 300, y := -25, speedX := 3/2, speedY := -2 } }

/-- A running state whose ball crosses the left boundary this tick with
horizontal speed dominating vertical speed. -/
def sideState : GState :=
  { exState with ball := { exBall with x := -18, y := 400, speedX := -3, speedY := 1 } }

/-- A running state whose ball crosses the left boundary this tick in the
upper half, vertical speed dominating. -/
def sideState2 : GState :=
  { exState with ball := { exBall with x := -18, y := 100, speedX := -3, speedY := 4 } }

/-! Helper lemmas about the clamp patterns of the shot calculator. -/

theorem abs_clamp_le (c v : ℚ) (hc : 0 ≤ c) : |max (-c) (min c v)| ≤ c := by
  rw [abs_le]
  exact ⟨le_max_left _ _, max_le (by linarith) (min_le_left _ _)⟩

theorem abs_clampY_top_le (c v : ℚ) (hc : 4/5 ≤ c) : |max (4/5) (min c v)| ≤ c := by
  rw [abs_le]
  exact ⟨le_trans (by linarith) (le_max_left _ _), max_le hc (min_le_left _ _)⟩

theorem abs_clampY_bot_le (c v : ℚ) (hc : 4/5 ≤ c) : |max (-c) (min (-(4/5)) v)| ≤ c := by
  rw [abs_le]
  exact ⟨le_max_left _ _, max_le (by linarith) (le_trans (min_le_left _ _) (by linarith))⟩

/-- The result of hitBallWithPaddle always has the shape of the two final
safety clamps (src/main.js:717-724). -/
theorem hitBall_shape (w h : ℚ) (set : Difficulty) (isTop : Bool)
    (paddle opp : Paddle) (rX rY : ℚ) (b : Ball) :
    ∃ v1 v2, hitBallWithPaddle w h set isTop paddle opp rX rY b =
      { b with speedX := max (-4) (min 4 v1),
               speedY := if isTop then max (4/5) (min set.ballMaxSpeed v2)
                         else max (-set.ballMaxSpeed) (min (-(4/5)) v2) } :=
  ⟨_, _, rfl⟩

/-- C1 (amended): for every difficulty profile whose ballMaxSpeed is at least
the 0.8 vertical floor (all three shipped profiles), every paddle hit leaves
the vertical speed within the profile bound and the horizontal speed within
the fixed ±4 cap that hitBallWithPaddle applies regardless of profile; the
profile bound on the horizontal component holds only when ballMaxSpeed ≥ 4. -/
theorem hitBall_speed_bounds (w h : ℚ) (set : Difficulty) (isTop : Bool)
    (paddle opp : Paddle) (rX rY : ℚ) (b : Ball) (hms : 4/5 ≤ set.ballMaxSpeed) :
    |(hitBallWithPaddle w h set isTop paddle opp rX rY b).speedX| ≤ 4 ∧
    |(hitBallWithPaddle w h set isTop paddle opp rX rY b).speedY| ≤ set.ballMaxSpeed := by
  obtain ⟨v1, v2, he⟩ := hitBall_shape w h set isTop paddle opp rX rY b
  rw [he]
  cases isTop
  · exact ⟨abs_clamp_le 4 _ (by norm_num), abs_clampY_bot_le _ _ hms⟩
  · exact ⟨abs_clamp_le 4 _ (by norm_num), abs_clampY_top_le _ _ hms⟩

/-- C1 counterexample: on the beginner profile (ballMaxSpeed 2.5) a concrete
player-paddle hit leaves |speedX| = 4, exceeding the profile bound. -/
theorem hitBall_speedX_exceeds_beginner_cap :
    beginner.ballMaxSpeed <
      |(hitBallWithPaddle 600 800 beginner false exPadC1 exOppC1 (1/2) (1/2) exBallC1).speedX| := by
  norm_num [hitBallWithPaddle, beginner, exPadC1, exOppC1, exBallC1, cbLeft, cbRight, netPosition]

/-- C1 witness: the amended bound applied at a concrete beginner-profile hit. -/
theorem hitBall_speed_bounds_check :
    ((4:ℚ)/5 ≤ beginner.ballMaxSpeed) ∧
    (|(hitBallWithPaddle 600 800 beginner false exPadC1 exOppC1 (1/2) (1/2) exBallC1).speedX| ≤ 4 ∧
     |(hitBallWithPaddle 600 800 beginner false exPadC1 exOppC1 (1/2) (1/2) exBallC1).speedY| ≤
       beginner.ballMaxSpeed) :=
  ⟨by norm_num [beginner],
   hitBall_speed_bounds 600 800 beginner false exPadC1 exOppC1 (1/2) (1/2) exBallC1
     (by norm_num [beginner])⟩

/-! Shape and field-preservation lemmas for the tick stages. -/

theorem updateAnimation_shape (s : GState) :
    ∃ n q k, updateAnimation s = { s with animFrame := n, fadeOpacity := q, animKind := k } := by
  unfold updateAnimation
  cases s.animKind
  · exact ⟨_, _, _, rfl⟩
  · dsimp only
    split
    · exact ⟨_, _, _, rfl⟩
    · exact ⟨_, _, _, rfl⟩
  · dsimp only
    split
    · exact ⟨_, _, _, rfl⟩
    · exact ⟨_, _, _, rfl⟩

theorem updateAnimation_ball (s : GState) : (updateAnimation s).ball = s.ball := by
  obtain ⟨n, q, k, he⟩ := updateAnimation_shape s; rw [he]

theorem updateAnimation_paddle1 (s : GState) : (updateAnimation s).paddle1 = s.paddle1 := by
  obtain ⟨n, q, k, he⟩ := updateAnimation_shape s; rw [he]

theorem updateAnimation_playerScore (s : GState) :
    (updateAnimation s).playerScore = s.playerScore := by
  obtain ⟨n, q, k, he⟩ := updateAnimation_shape s; rw [he]

theorem updateAnimation_copilotScore (s : GState) :
    (updateAnimation s).copilotScore = s.copilotScore := by
  obtain ⟨n, q, k, he⟩ := updateAnimation_shape s; rw [he]

theorem updateAnimation_gameRunning (s : GState) :
    (updateAnimation s).gameRunning = s.gameRunning := by
  obtain ⟨n, q, k, he⟩ := updateAnimation_shape s; rw [he]

theorem updateAnimation_isScoreDelay (s : GState) :
    (updateAnimation s).isScoreDelay = s.isScoreDelay := by
  obtain ⟨n, q, k, he⟩ := updateAnimation_shape s; rw [he]

theorem movePlayerPaddle_shape (w h : ℚ) (keys : Keys) (s : GState) :
    ∃ p, movePlayerPaddle w h keys s = { s with paddle2 := p } := ⟨_, rfl⟩

theorem movePlayerPaddle_ball (w h : ℚ) (keys : Keys) (s : GState) :
    (movePlayerPaddle w h keys s).ball = s.ball := rfl

theorem movePlayerPaddle_paddle1 (w h : ℚ) (keys : Keys) (s : GState) :
    (movePlayerPaddle w h keys s).paddle1 = s.paddle1 := rfl

theorem movePlayerPaddle_playerScore (w h : ℚ) (keys : Keys) (s : GState) :
    (movePlayerPaddle w h keys s).playerScore = s.playerScore := rfl

theorem movePlayerPaddle_copilotScore (w h : ℚ) (keys : Keys) (s : GState) :
    (movePlayerPaddle w h keys s).copilotScore = s.copilotScore := rfl

theorem moveAIPaddle_shape (w h : ℚ) (set : Difficulty) (s : GState) :
    ∃ tx ty p, moveAIPaddle w h set s = { s with aiTargetX := tx, aiTargetY := ty, paddle1 := p } :=
  ⟨_, _, _, rfl⟩

theorem moveAIPaddle_ball (w h : ℚ) (set : Difficulty) (s : GState) :
    (moveAIPaddle w h set s).ball = s.ball := rfl

theorem moveAIPaddle_playerScore (w h : ℚ) (set : Difficulty) (s : GState) :
    (moveAIPaddle w h set s).playerScore = s.playerScore := rfl

theorem moveAIPaddle_copilotScore (w h : ℚ) (set : Difficulty) (s : GState) :
    (moveAIPaddle w h set s).copilotScore = s.copilotScore := rfl

theorem moveBall_ball_y (s : GState) : (moveBall s).ball.y = s.ball.y + s.ball.speedY := rfl

theorem moveBall_ball_x (s : GState) : (moveBall s).ball.x = s.ball.x + s.ball.speedX := rfl

theorem moveBall_speedX (s : GState) : (moveBall s).ball.speedX = s.ball.speedX := rfl

theorem moveBall_speedY (s : GState) : (moveBall s).ball.speedY = s.ball.speedY := rfl

theorem moveBall_paddle1 (s : GState) : (moveBall s).paddle1 = s.paddle1 := rfl

theorem moveBall_playerScore (s : GState) : (moveBall s).playerScore = s.playerScore := rfl

theorem moveBall_copilotScore (s : GState) : (moveBall s).copilotScore = s.copilotScore := rfl

theorem checkWinCondition_ball (s : GState) : (checkWinCondition s).ball = s.ball := by
  unfold checkWinCondition; split_ifs <;> rfl

theorem checkWinCondition_playerScore (s : GState) :
    (checkWinCondition s).playerScore = s.playerScore := by
  unfold checkWinCondition; split_ifs <;> rfl

theorem checkWinCondition_copilotScore (s : GState) :
    (checkWinCondition s).copilotScore = s.copilotScore := by
  unfold checkWinCondition; split_ifs <;> rfl

theorem checkWinCondition_paddle1 (s : GState) : (checkWinCondition s).paddle1 = s.paddle1 := by
  unfold checkWinCondition; split_ifs <;> rfl

theorem scoreOutOfBounds_ball (w h : ℚ) (s : GState) : (scoreOutOfBounds w h s).ball = s.ball := by
  simp only [scoreOutOfBounds]
  split_ifs <;> simp [triggerScoreDelay, checkWinCondition_ball]

theorem scoreOutOfBounds_paddle1 (w h : ℚ) (s : GState) :
    (scoreOutOfBounds w h s).paddle1 = s.paddle1 := by
  simp only [scoreOutOfBounds]
  split_ifs <;> simp [triggerScoreDelay, checkWinCondition_paddle1]

theorem scoreOutOfBounds_top (w h : ℚ) (s : GState) (hb : s.ball.y ≤ -20) :
    (scoreOutOfBounds w h s).playerScore = s.playerScore + 1 ∧
    (scoreOutOfBounds w h s).copilotScore = s.copilotScore := by
  simp only [scoreOutOfBounds]
  rw [if_pos hb]
  constructor <;> split <;>
    simp [triggerScoreDelay, checkWinCondition_playerScore, checkWinCondition_copilotScore]

theorem handleCollisions_shape (w h : ℚ) (set : Difficulty) (rX rY : ℚ) (s : GState) :
    ∃ b, handleCollisions w h set rX rY s = { s with ball := b } := by
  unfold handleCollisions
  split_ifs <;> exact ⟨_, rfl⟩

theorem handleCollisions_playerScore (w h : ℚ) (set : Difficulty) (rX rY : ℚ) (s : GState) :
    (handleCollisions w h set rX rY s).playerScore = s.playerScore := by
  obtain ⟨b, hb⟩ := handleCollisions_shape w h set rX rY s; rw [hb]

theorem handleCollisions_copilotScore (w h : ℚ) (set : Difficulty) (rX rY : ℚ) (s : GState) :
    (handleCollisions w h set rX rY s).copilotScore = s.copilotScore := by
  obtain ⟨b, hb⟩ := handleCollisions_shape w h set rX rY s; rw [hb]

theorem handleCollisions_paddle1 (w h : ℚ) (set : Difficulty) (rX rY : ℚ) (s : GState) :
    (handleCollisions w h set rX rY s).paddle1 = s.paddle1 := by
  obtain ⟨b, hb⟩ := handleCollisions_shape w h set rX rY s; rw [hb]

theorem update_run_eq (w h : ℚ) (set : Difficulty) (keys : Keys) (rX rY : ℚ) (s : GState)
    (hrun : s.gameRunning = true) (hdelay : s.isScoreDelay = false) :
    update w h set keys rX rY s =
      handleCollisions w h set rX rY
        (scoreOutOfBounds w h
          (moveBall (moveAIPaddle w h set (movePlayerPaddle w h keys (updateAnimation s))))) := by
  simp only [update, updateAnimation_gameRunning, updateAnimation_isScoreDelay, hrun, hdelay]
  norm_num


/-- C2: the scoring-delay timer has no epoch guard.  With a delay pending
(player scored), resetGame leaves isScoreDelay raised, and when the deferred
restartAfterScore fires against the freshly reset generation it re-centers
the ball (moving it from the reset position) and flips the score-delay flag:
it is not a no-op. -/
theorem restartAfterScore_after_reset_not_noop :
    afterReset.isScoreDelay = true ∧
    (restartAfterScore 600 800 beginner (1/2) (1/2) (1/2) afterReset).ball.x ≠ afterReset.ball.x ∧
    (restartAfterScore 600 800 beginner (1/2) (1/2) (1/2) afterReset).ball.y ≠ afterReset.ball.y ∧
    (restartAfterScore 600 800 beginner (1/2) (1/2) (1/2) afterReset).isScoreDelay ≠
      afterReset.isScoreDelay := by
  norm_num [afterReset, restartAfterScore, resetGame, resetBallSpeed, applyDifficultySettings,
    jsSign, orDefault, beginner, pendingState, exState, exBall, exPaddle1, exPaddle2]

/-- C3: after the match has ended, a pause toggle followed by another sets
gameRunning back to true (togglePause has no gameEnded guard), and the next
tick then increments the score past the winning threshold: the Ended state
does not freeze the simulation against user actions. -/
theorem togglePause_after_end_resumes_scoring :
    endedState.gameEnded = true ∧
    endedState.playerScore = endedState.winningScore ∧
    (togglePause (togglePause endedState)).gameRunning = true ∧
    (update 600 800 beginner keysNone (1/2) (1/2)
        (togglePause (togglePause endedState))).playerScore = endedState.playerScore + 1 := by
  have hres : togglePause (togglePause endedState) = { endedState with gameRunning := true } := by
    norm_num [togglePause, endedState, exState]
  refine ⟨rfl, rfl, ?_, ?_⟩
  · rw [hres]
  · rw [hres, update_run_eq _ _ _ _ _ _ _ rfl rfl, handleCollisions_playerScore]
    have hy : (moveBall (moveAIPaddle 600 800 beginner (movePlayerPaddle 600 800 keysNone
        (updateAnimation { endedState with gameRunning := true })))).ball.y ≤ -20 := by
      simp only [moveBall_ball_y, moveAIPaddle_ball, movePlayerPaddle_ball, updateAnimation_ball]
      norm_num [endedState, exState, exBall]
    rw [(scoreOutOfBounds_top _ _ _ hy).1]
    simp only [moveBall_playerScore, moveAIPaddle_playerScore, movePlayerPaddle_playerScore,
      updateAnimation_playerScore]

theorem movePlayerPaddle_no_keys (w h : ℚ) (s : GState) :
    movePlayerPaddle w h keysNone s = s := rfl

theorem moveBall_ball (s : GState) :
    (moveBall s).ball = { s.ball with x := s.ball.x + s.ball.speedX,
                                      y := s.ball.y + s.ball.speedY } := rfl

theorem moveBall_paddle2 (s : GState) : (moveBall s).paddle2 = s.paddle2 := rfl

theorem moveAIPaddle_paddle2 (w h : ℚ) (set : Difficulty) (s : GState) :
    (moveAIPaddle w h set s).paddle2 = s.paddle2 := rfl

theorem handleCollisions_no_hit (w h : ℚ) (set : Difficulty) (rX rY : ℚ) (s : GState)
    (h1 : ¬ checkCollision s.ball.rect s.paddle1.rect)
    (h2 : ¬ checkCollision s.ball.rect s.paddle2.rect) :
    handleCollisions w h set rX rY s = s := by
  unfold handleCollisions
  rw [if_neg h1, if_neg h2]

theorem scoreOutOfBounds_side_none (w h : ℚ) (s : GState)
    (htop : ¬ s.ball.y ≤ -20) (hbot : ¬ h + 20 ≤ s.ball.y)
    (hside : s.ball.x ≤ -20 ∨ w + 20 ≤ s.ball.x)
    (hnd : ¬ |s.ball.speedX| < |s.ball.speedY|) :
    scoreOutOfBounds w h s = s := by
  simp only [scoreOutOfBounds]
  rw [if_neg htop, if_neg hbot, if_pos hside, if_neg hnd]

theorem scoreOutOfBounds_side_upper (w h : ℚ) (s : GState)
    (htop : ¬ s.ball.y ≤ -20) (hbot : ¬ h + 20 ≤ s.ball.y)
    (hside : s.ball.x ≤ -20 ∨ w + 20 ≤ s.ball.x)
    (hd : |s.ball.speedX| < |s.ball.speedY|) (hup : s.ball.y < h / 2) :
    (scoreOutOfBounds w h s).playerScore = s.playerScore + 1 ∧
    (scoreOutOfBounds w h s).copilotScore = s.copilotScore := by
  simp only [scoreOutOfBounds]
  rw [if_neg htop, if_neg hbot, if_pos hside, if_pos hd, if_pos hup]
  constructor
  · rw [checkWinCondition_playerScore]
    split <;> simp [triggerScoreDelay]
  · rw [checkWinCondition_copilotScore]
    split <;> simp [triggerScoreDelay]

theorem scoreOutOfBounds_side_lower (w h : ℚ) (s : GState)
    (htop : ¬ s.ball.y ≤ -20) (hbot : ¬ h + 20 ≤ s.ball.y)
    (hside : s.ball.x ≤ -20 ∨ w + 20 ≤ s.ball.x)
    (hd : |s.ball.speedX| < |s.ball.speedY|) (hup : ¬ s.ball.y < h / 2) :
    (scoreOutOfBounds w h s).copilotScore = s.copilotScore + 1 ∧
    (scoreOutOfBounds w h s).playerScore = s.playerScore := by
  simp only [scoreOutOfBounds]
  rw [if_neg htop, if_neg hbot, if_pos hside, if_pos hd, if_neg hup]
  constructor
  · rw [checkWinCondition_copilotScore]
    split <;> simp [triggerScoreDelay]
  · rw [checkWinCondition_playerScore]
    split <;> simp [triggerScoreDelay]

/-- C4 (amended): when the ball crosses a side boundary (and not a top or
bottom one), the boundary handling of the tick leaves the ball entirely
unchanged: the horizontal velocity is not inverted and the position is not
clamped back inside.  Side contact is a potential scoring event instead:
exactly one point is awarded when |speedY| strictly exceeds |speedX|, and
nothing at all happens otherwise. -/
theorem side_exit_no_bounce (w h : ℚ) (s : GState)
    (htop : ¬ s.ball.y ≤ -20) (hbot : ¬ h + 20 ≤ s.ball.y)
    (hside : s.ball.x ≤ -20 ∨ w + 20 ≤ s.ball.x) :
    (scoreOutOfBounds w h s).ball = s.ball ∧
    (¬ |s.ball.speedX| < |s.ball.speedY| → scoreOutOfBounds w h s = s) ∧
    (|s.ball.speedX| < |s.ball.speedY| →
      (scoreOutOfBounds w h s).playerScore + (scoreOutOfBounds w h s).copilotScore =
        s.playerScore + s.copilotScore + 1) := by
  refine ⟨scoreOutOfBounds_ball w h s,
    fun hnd => scoreOutOfBounds_side_none w h s htop hbot hside hnd, fun hd => ?_⟩
  by_cases hup : s.ball.y < h / 2
  · obtain ⟨h1, h2⟩ := scoreOutOfBounds_side_upper w h s htop hbot hside hd hup
    rw [h1, h2]
    omega
  · obtain ⟨h1, h2⟩ := scoreOutOfBounds_side_lower w h s htop hbot hside hd hup
    rw [h1, h2]
    omega

/-- The exited ball after the tick moves sideState one step. -/
def sideBallMoved : Ball := { exBall with x := -21, y := 401, speedX := -3, speedY := 1 }

/-- A state whose ball already sits past the left boundary, horizontal speed
dominating (used to exercise the no-scoring side case). -/
def sideExited : GState := { exState with ball := sideBallMoved }

/-- A state whose ball already sits past the left boundary in the upper half,
vertical speed dominating. -/
def sideExited2 : GState :=
  { exState with ball := { exBall with x := -21, y := 97, speedX := -3, speedY := 4 } }

/-- C4 counterexample: a concrete tick in which the ball crosses the left
boundary (x becomes -21) and its horizontal velocity is NOT inverted (still
-3, not 3) and its position is NOT clamped back inside the bounds. -/
theorem side_exit_no_inversion_concrete :
    sideState.ball.x + sideState.ball.speedX ≤ -20 ∧
    (update 600 800 beginner keysNone (1/2) (1/2) sideState).ball.speedX =
      sideState.ball.speedX ∧
    (update 600 800 beginner keysNone (1/2) (1/2) sideState).ball.speedX ≠
      -(sideState.ball.speedX) ∧
    (update 600 800 beginner keysNone (1/2) (1/2) sideState).ball.x < 0 := by
  have hZb : (moveBall (moveAIPaddle 600 800 beginner sideState)).ball = sideBallMoved := by
    rw [moveBall_ball, moveAIPaddle_ball]
    norm_num [sideState, exState, exBall, sideBallMoved]
  have hMp1 : (moveAIPaddle 600 800 beginner sideState).paddle1 =
      { exPaddle1 with x := 518461/2000, y := 50 } := by
    norm_num [moveAIPaddle, beginner, sideState, exState, exBall, exPaddle1, exPaddle2,
      cbTop, netPosition, abs]
  have hsc : scoreOutOfBounds 600 800 (moveBall (moveAIPaddle 600 800 beginner sideState)) =
      moveBall (moveAIPaddle 600 800 beginner sideState) := by
    apply scoreOutOfBounds_side_none <;> rw [hZb] <;> norm_num [sideBallMoved, exBall]
  have hhc : handleCollisions 600 800 beginner (1/2) (1/2)
      (moveBall (moveAIPaddle 600 800 beginner sideState)) =
      moveBall (moveAIPaddle 600 800 beginner sideState) := by
    apply handleCollisions_no_hit
    · rw [hZb, moveBall_paddle1, hMp1]
      norm_num [checkCollision, Ball.rect, Paddle.rect, sideBallMoved, exBall, exPaddle1]
    · rw [hZb, moveBall_paddle2, moveAIPaddle_paddle2]
      norm_num [checkCollision, Ball.rect, Paddle.rect, sideBallMoved, exBall, sideState,
        exState, exPaddle2]
  rw [update_run_eq _ _ _ _ _ _ _ rfl rfl]
  rw [show updateAnimation sideState = sideState from rfl, movePlayerPaddle_no_keys,
    hsc, hhc, hZb]
  norm_num [sideBallMoved, sideState, exState, exBall]

/-- C4 witness: the amended side-exit behavior at a concrete exited state
(ball at x = -21, horizontal speed dominating). -/
theorem side_exit_no_bounce_check :
    ((¬ (sideExited.ball.y ≤ -20)) ∧ ¬ ((800:ℚ) + 20 ≤ sideExited.ball.y) ∧
      (sideExited.ball.x ≤ -20 ∨ (600:ℚ) + 20 ≤ sideExited.ball.x)) ∧
    ((scoreOutOfBounds 600 800 sideExited).ball = sideExited.ball ∧
     (¬ |sideExited.ball.speedX| < |sideExited.ball.speedY| →
        scoreOutOfBounds 600 800 sideExited = sideExited) ∧
     (|sideExited.ball.speedX| < |sideExited.ball.speedY| →
        (scoreOutOfBounds 600 800 sideExited).playerScore +
          (scoreOutOfBounds 600 800 sideExited).copilotScore =
        sideExited.playerScore + sideExited.copilotScore + 1)) :=
  ⟨⟨by norm_num [sideExited, sideBallMoved, exState, exBall],
    by norm_num [sideExited, sideBallMoved, exState, exBall],
    by norm_num [sideExited, sideBallMoved, exState, exBall]⟩,
   side_exit_no_bounce 600 800 sideExited
     (by norm_num [sideExited, sideBallMoved, exState, exBall])
     (by norm_num [sideExited, sideBallMoved, exState, exBall])
     (by norm_num [sideExited, sideBallMoved, exState, exBall])⟩

/-- C9: on a side exit (not a top or bottom exit), a point is awarded exactly
when the vertical speed magnitude strictly dominates the horizontal one, and
it goes to the human player when the ball is in the upper half of the court
(y < height/2) and to the AI otherwise. -/
theorem side_exit_attribution (w h : ℚ) (s : GState)
    (htop : ¬ s.ball.y ≤ -20) (hbot : ¬ h + 20 ≤ s.ball.y)
    (hside : s.ball.x ≤ -20 ∨ w + 20 ≤ s.ball.x) :
    (¬ |s.ball.speedX| < |s.ball.speedY| → scoreOutOfBounds w h s = s) ∧
    (|s.ball.speedX| < |s.ball.speedY| → s.ball.y < h / 2 →
      (scoreOutOfBounds w h s).playerScore = s.playerScore + 1 ∧
      (scoreOutOfBounds w h s).copilotScore = s.copilotScore) ∧
    (|s.ball.speedX| < |s.ball.speedY| → ¬ s.ball.y < h / 2 →
      (scoreOutOfBounds w h s).copilotScore = s.copilotScore + 1 ∧
      (scoreOutOfBounds w h s).playerScore = s.playerScore) :=
  ⟨fun hnd => scoreOutOfBounds_side_none w h s htop hbot hside hnd,
   fun hd hup => scoreOutOfBounds_side_upper w h s htop hbot hside hd hup,
   fun hd hup => scoreOutOfBounds_side_lower w h s htop hbot hside hd hup⟩

/-- C9 witness: the attribution applied at a concrete upper-half side exit
with dominant vertical speed. -/
theorem side_exit_attribution_check :
    ((¬ (sideExited2.ball.y ≤ -20)) ∧ ¬ ((800:ℚ) + 20 ≤ sideExited2.ball.y) ∧
      (sideExited2.ball.x ≤ -20 ∨ (600:ℚ) + 20 ≤ sideExited2.ball.x)) ∧
    ((¬ |sideExited2.ball.speedX| < |sideExited2.ball.speedY| →
        scoreOutOfBounds 600 800 sideExited2 = sideExited2) ∧
     (|sideExited2.ball.speedX| < |sideExited2.ball.speedY| → sideExited2.ball.y < 800 / 2 →
        (scoreOutOfBounds 600 800 sideExited2).playerScore = sideExited2.playerScore + 1 ∧
        (scoreOutOfBounds 600 800 sideExited2).copilotScore = sideExited2.copilotScore) ∧
     (|sideExited2.ball.speedX| < |sideExited2.ball.speedY| → ¬ sideExited2.ball.y < 800 / 2 →
        (scoreOutOfBounds 600 800 sideExited2).copilotScore = sideExited2.copilotScore + 1 ∧
        (scoreOutOfBounds 600 800 sideExited2).playerScore = sideExited2.playerScore)) :=
  ⟨⟨by norm_num [sideExited2, exState, exBall], by norm_num [sideExited2, exState, exBall],
    by norm_num [sideExited2, exState, exBall]⟩,
   side_exit_attribution 600 800 sideExited2 (by norm_num [sideExited2, exState, exBall])
     (by norm_num [sideExited2, exState, exBall]) (by norm_num [sideExited2, exState, exBall])⟩

theorem moveAIPaddle_bounds (w h : ℚ) (set : Difficulty) (s : GState)
    (hw : s.paddle1.width ≤ w) (hnet : cbTop + set.aiMaxDistanceFromNet ≤ netPosition h) :
    0 ≤ (moveAIPaddle w h set s).paddle1.x ∧
    (moveAIPaddle w h set s).paddle1.x ≤ w - s.paddle1.width ∧
    (moveAIPaddle w h set s).paddle1.y ≤ netPosition h - set.aiMaxDistanceFromNet := by
  simp only [moveAIPaddle]
  exact ⟨le_max_left _ _, max_le (by linarith) (min_le_left _ _),
    max_le (by linarith) (min_le_left _ _)⟩

/-- C8: on every running tick, after the AI controller has run, the AI paddle
satisfies 0 <= x <= width - paddleWidth and y stays at least the configured
stand-off distance above the net, for any difficulty whose stand-off fits
between the top court bound and the net (true of all three shipped profiles
at every canvas size). -/
theorem update_ai_paddle_in_bounds (w h : ℚ) (set : Difficulty) (keys : Keys) (rX rY : ℚ)
    (s : GState) (hrun : s.gameRunning = true) (hdelay : s.isScoreDelay = false)
    (hw : s.paddle1.width ≤ w) (hnet : cbTop + set.aiMaxDistanceFromNet ≤ netPosition h) :
    0 ≤ (update w h set keys rX rY s).paddle1.x ∧
    (update w h set keys rX rY s).paddle1.x ≤ w - s.paddle1.width ∧
    (update w h set keys rX rY s).paddle1.y ≤ netPosition h - set.aiMaxDistanceFromNet := by
  rw [update_run_eq _ _ _ _ _ _ _ hrun hdelay, handleCollisions_paddle1,
    scoreOutOfBounds_paddle1, moveBall_paddle1]
  have hw2 : (movePlayerPaddle w h keys (updateAnimation s)).paddle1.width ≤ w := by
    rw [movePlayerPaddle_paddle1, updateAnimation_paddle1]
    exact hw
  have hres := moveAIPaddle_bounds w h set (movePlayerPaddle w h keys (updateAnimation s)) hw2 hnet
  rw [movePlayerPaddle_paddle1, updateAnimation_paddle1] at hres
  exact hres

/-- C8 witness: the bounds applied at a concrete running beginner-profile
state on the desktop canvas. -/
theorem update_ai_paddle_in_bounds_check :
    (exState.gameRunning = true ∧ exState.isScoreDelay = false ∧
      exState.paddle1.width ≤ 600 ∧
      cbTop + beginner.aiMaxDistanceFromNet ≤ netPosition 800) ∧
    (0 ≤ (update 600 800 beginner keysNone (1/2) (1/2) exState).paddle1.x ∧
     (update 600 800 beginner keysNone (1/2) (1/2) exState).paddle1.x ≤
       600 - exState.paddle1.width ∧
     (update 600 800 beginner keysNone (1/2) (1/2) exState).paddle1.y ≤
       netPosition 800 - beginner.aiMaxDistanceFromNet) :=
  ⟨⟨rfl, rfl, by norm_num [exState, exPaddle1],
    by norm_num [cbTop, netPosition, beginner]⟩,
   update_ai_paddle_in_bounds 600 800 beginner keysNone (1/2) (1/2) exState rfl rfl
     (by norm_num [exState, exPaddle1]) (by norm_num [cbTop, netPosition, beginner])⟩



theorem jsSign_abs (v : ℚ) (hv : v ≠ 0) : |jsSign v| = 1 := by
  unfold jsSign
  rcases lt_trichotomy v 0 with h | h | h
  · rw [if_neg (by linarith), if_pos h]
    norm_num
  · exact absurd h hv
  · rw [if_pos h]
    norm_num

theorem orDefault_one_ne (v : ℚ) : orDefault v 1 ≠ 0 := by
  unfold orDefault
  split
  · norm_num
  · assumption

theorem resetGuard_abs (v : ℚ) :
    4/5 ≤ |if |v| < 4/5 then 4/5 * jsSign (orDefault v 1) else v| := by
  split
  · rw [abs_mul, jsSign_abs _ (orDefault_one_ne v),
      abs_of_pos (by norm_num : (0:ℚ) < 4/5)]
    norm_num
  · next hlt => exact le_of_not_lt hlt

theorem serveGuard_abs (v : ℚ) (hv : v ≠ 0) :
    4/5 ≤ |if |v| < 4/5 then 4/5 * jsSign v else v| := by
  split
  · rw [abs_mul, jsSign_abs _ hv, abs_of_pos (by norm_num : (0:ℚ) < 4/5)]
    norm_num
  · next hlt => exact le_of_not_lt hlt

theorem clamp3_ne (v : ℚ) (hv : v ≠ 0) : max (-3) (min 3 v) ≠ 0 := by
  rcases lt_or_gt_of_ne hv with h | h
  · have hm : min 3 v < 0 := lt_of_le_of_lt (min_le_right _ _) h
    have : max (-3) (min 3 v) < 0 := max_lt_iff.mpr ⟨by norm_num, hm⟩
    exact this.ne
  · have : 0 < max (-3) (min 3 v) :=
      lt_of_lt_of_le (lt_min (by norm_num) h) (le_max_right _ _)
    exact this.ne'

theorem resetBallSpeed_floor (set : Difficulty) (q1 q2 r1 r2 : ℚ) (s : GState) :
    4/5 ≤ |(resetBallSpeed set q1 q2 r1 r2 s).ball.speedX| ∧
    4/5 ≤ |(resetBallSpeed set q1 q2 r1 r2 s).ball.speedY| := by
  simp only [resetBallSpeed]
  exact ⟨resetGuard_abs _, resetGuard_abs _⟩

theorem restartAfterScore_floor (w h : ℚ) (set : Difficulty) (q r1 r2 : ℚ) (t : GState)
    (hbx : 0 < set.ballSpeedX) (hby : 0 < set.ballSpeedY)
    (hr1 : 0 ≤ r1) (hr2 : 0 ≤ r2) (hend : t.gameEnded = false) :
    4/5 ≤ |(restartAfterScore w h set q r1 r2 t).ball.speedX| ∧
    4/5 ≤ |(restartAfterScore w h set q r1 r2 t).ball.speedY| := by
  have hcond : ¬ (t.gameEnded = true) := by rw [hend]; exact Bool.false_ne_true
  unfold restartAfterScore
  rw [if_neg hcond]
  constructor
  · apply serveGuard_abs
    apply clamp3_ne
    have hp : 0 < set.ballSpeedX + r1 * (1/2) := by linarith
    exact mul_ne_zero hp.ne' (by split <;> norm_num)
  · apply serveGuard_abs
    have hp : 0 < set.ballSpeedY + r2 * (1/2) := by linarith
    split
    · exact neg_ne_zero.mpr hp.ne'
    · exact hp.ne'

theorem hitBall_speedY_floor (w h : ℚ) (set : Difficulty) (isTop : Bool)
    (paddle opp : Paddle) (rX rY : ℚ) (b : Ball) (hms : 4/5 ≤ set.ballMaxSpeed) :
    4/5 ≤ |(hitBallWithPaddle w h set isTop paddle opp rX rY b).speedY| := by
  obtain ⟨v1, v2, he⟩ := hitBall_shape w h set isTop paddle opp rX rY b
  rw [he]
  cases isTop
  · have hx : max (-set.ballMaxSpeed) (min (-(4/5)) v2) ≤ -(4/5) :=
      max_le (by linarith) (min_le_left _ _)
    calc (4:ℚ)/5 ≤ -(max (-set.ballMaxSpeed) (min (-(4/5)) v2)) := by linarith
      _ ≤ _ := neg_le_abs _
  · exact le_trans (le_max_left _ _) (le_abs_self _)


/-- C5 (amended): after any serve (resetBallSpeed, and restartAfterScore when
it actually serves, i.e. the match is not over) both velocity components have
magnitude at least the 0.8 floor; after a paddle hit only the vertical
component is floored at 0.8: hitBallWithPaddle puts no floor on the
horizontal component, which can be exactly zero. -/
theorem serve_hit_speed_floor (w h : ℚ) (set : Difficulty) (q1 q2 r1 r2 q r3 r4 rX rY : ℚ)
    (s t : GState) (isTop : Bool) (paddle opp : Paddle) (b : Ball)
    (hbx : 0 < set.ballSpeedX) (hby : 0 < set.ballSpeedY)
    (hr3 : 0 ≤ r3) (hr4 : 0 ≤ r4) (hend : t.gameEnded = false)
    (hms : 4/5 ≤ set.ballMaxSpeed) :
    (4/5 ≤ |(resetBallSpeed set q1 q2 r1 r2 s).ball.speedX| ∧
     4/5 ≤ |(resetBallSpeed set q1 q2 r1 r2 s).ball.speedY|) ∧
    (4/5 ≤ |(restartAfterScore w h set q r3 r4 t).ball.speedX| ∧
     4/5 ≤ |(restartAfterScore w h set q r3 r4 t).ball.speedY|) ∧
    4/5 ≤ |(hitBallWithPaddle w h set isTop paddle opp rX rY b).speedY| :=
  ⟨resetBallSpeed_floor set q1 q2 r1 r2 s,
   restartAfterScore_floor w h set q r3 r4 t hbx hby hr3 hr4 hend,
   hitBall_speedY_floor w h set isTop paddle opp rX rY b hms⟩

/-- C5 counterexample: a concrete beginner-profile paddle hit whose resulting
horizontal speed is exactly zero, so the post-hit trajectory has no nonzero
floor on both components. -/
theorem hitBall_speedX_zero_concrete :
    (hitBallWithPaddle 600 800 beginner false exPadC5 exOppC1 (1/2) (1/2) exBallC5).speedX
      = 0 := by
  norm_num [hitBallWithPaddle, beginner, exPadC5, exOppC1, exBallC5, cbLeft, cbRight,
    netPosition]

/-- C5 witness: the amended floors applied at concrete serve and hit inputs. -/
theorem serve_hit_speed_floor_check :
    (0 < beginner.ballSpeedX ∧ 0 < beginner.ballSpeedY ∧ (0:ℚ) ≤ 1/2 ∧
      exState.gameEnded = false ∧ (4:ℚ)/5 ≤ beginner.ballMaxSpeed) ∧
    ((4/5 ≤ |(resetBallSpeed beginner (1/2) (1/2) (1/2) (1/2) exState).ball.speedX| ∧
      4/5 ≤ |(resetBallSpeed beginner (1/2) (1/2) (1/2) (1/2) exState).ball.speedY|) ∧
     (4/5 ≤ |(restartAfterScore 600 800 beginner (1/2) (1/2) (1/2) exState).ball.speedX| ∧
      4/5 ≤ |(restartAfterScore 600 800 beginner (1/2) (1/2) (1/2) exState).ball.speedY|) ∧
     4/5 ≤ |(hitBallWithPaddle 600 800 beginner false exPadC5 exOppC1 (1/2) (1/2)
              exBallC5).speedY|) :=
  ⟨⟨by norm_num [beginner], by norm_num [beginner], by norm_num, rfl,
    by norm_num [beginner]⟩,
   serve_hit_speed_floor 600 800 beginner (1/2) (1/2) (1/2) (1/2) (1/2) (1/2) (1/2) (1/2) (1/2)
     exState exState false exPadC5 exOppC1 exBallC5 (by norm_num [beginner])
     (by norm_num [beginner]) (by norm_num) (by norm_num) rfl (by norm_num [beginner])⟩




theorem if_lt_max (a b : Int) : (if a < b then b else a) = max a b := by
  rcases le_or_lt b a with hc | hc
  · rw [if_neg (not_lt.mpr hc), max_eq_left hc]
  · rw [if_pos hc, max_eq_right hc.le]

theorem getPlayer_map_upd (db : DB) (pid : String) (f : PlayerRow → PlayerRow)
    (hf : ∀ r, (f r).playerId = r.playerId) :
    getPlayer (db.map f) pid = (getPlayer db pid).map f := by
  unfold getPlayer
  rw [List.find?_map]
  have hp : ((fun r : PlayerRow => r.playerId == pid) ∘ f) =
      fun r : PlayerRow => r.playerId == pid := by
    funext r
    simp [Function.comp, hf r]
  rw [hp]

/-- C6: when the supplied playerId already exists under a different name,
upsertPlayer does not merge: it inserts a fresh row under the NEWID draw and
returns it, so the returned playerId differs from the supplied one, the
returned playerName is the new name, and the original row is untouched. -/
theorem upsertPlayer_forks_on_name_collision (db : DB) (pid name newId : String)
    (row : PlayerRow) (hfind : getPlayer db pid = some row) (hname : row.playerName ≠ name)
    (hfresh : newId ∉ db.map PlayerRow.playerId) :
    (upsertPlayer db pid name newId).2.playerId = newId ∧
    (upsertPlayer db pid name newId).2.playerId ≠ pid ∧
    (upsertPlayer db pid name newId).2.playerName = name ∧
    row ∈ (upsertPlayer db pid name newId).1 ∧
    (upsertPlayer db pid name newId).2 ∈ (upsertPlayer db pid name newId).1 := by
  have hmem : row ∈ db := List.mem_of_find?_eq_some hfind
  have hpid : row.playerId = pid := by simpa using List.find?_some hfind
  have hnePid : newId ≠ pid := by
    intro hEq
    exact hfresh (by rw [hEq, ← hpid]; exact List.mem_map_of_mem _ hmem)
  simp only [upsertPlayer, hfind]
  rw [if_pos hname]
  exact ⟨rfl, hnePid, rfl, List.mem_cons_of_mem _ hmem, List.mem_cons_self _ _⟩

/-- Player id used in the C6 scenario. -/
def pidX : String := "X"

/-- First registered name in the C6 scenario. -/
def nameAlice : String := "Alice"

/-- Conflicting name in the C6 scenario. -/
def nameBob : String := "Bob"

/-- The NEWID draw of the C6 scenario. -/
def freshIdX : String := "5f2d-fresh"

/-- The pre-existing row of the C6 scenario. -/
def exRow6 : PlayerRow := ⟨pidX, nameAlice, 0, 0, 0⟩

/-- A one-player table holding the C6 row. -/
def exDb6 : DB := [exRow6]

/-- C6 witness: the fork applied at the literal spec scenario, id X with
Alice re-posted as Bob. -/
theorem upsertPlayer_forks_check :
    (getPlayer exDb6 pidX = some exRow6 ∧ exRow6.playerName ≠ nameBob ∧
      freshIdX ∉ exDb6.map PlayerRow.playerId) ∧
    ((upsertPlayer exDb6 pidX nameBob freshIdX).2.playerId = freshIdX ∧
     (upsertPlayer exDb6 pidX nameBob freshIdX).2.playerId ≠ pidX ∧
     (upsertPlayer exDb6 pidX nameBob freshIdX).2.playerName = nameBob ∧
     exRow6 ∈ (upsertPlayer exDb6 pidX nameBob freshIdX).1 ∧
     (upsertPlayer exDb6 pidX nameBob freshIdX).2 ∈
       (upsertPlayer exDb6 pidX nameBob freshIdX).1) :=
  ⟨⟨by decide, by decide, by decide⟩,
   upsertPlayer_forks_on_name_collision exDb6 pidX nameBob freshIdX exRow6 (by decide)
     (by decide) (by decide)⟩

/-- C7 (amended): a score submission for an unseen playerId succeeds: it
creates the player row implicitly with the default name, CurrentScore equal
to the submitted score, GamesPlayed 1, exactly one history row - but
BestScore becomes max(0, score), which equals the submitted score only when
that score is nonnegative. -/
theorem updatePlayerScore_implicit_create (db : DB) (hist : List GameScoreRow) (pid : String)
    (score : Int) (hnew : getPlayer db pid = none) :
    (updatePlayerScore db hist pid score).2.2 =
      some ⟨pid, defaultPlayerName, score, max 0 score, 1⟩ ∧
    (updatePlayerScore db hist pid score).2.1 = ⟨pid, score⟩ :: hist := by
  refine ⟨?_, rfl⟩
  simp only [updatePlayerScore, updatePlayerScoreDb, hnew, Option.isSome_none, List.map_cons]
  norm_num [getPlayer, List.find?_cons, if_lt_max]

/-- Fresh player id used by the C7 scenario. -/
def pidY : String := "fresh-guid"

/-- C7 counterexample: submitting a negative score for an unseen player
yields BestScore 0, not the submitted score -1. -/
theorem updatePlayerScore_negative_best_concrete :
    (updatePlayerScore ([] : DB) ([] : List GameScoreRow) pidY (-1)).2.2 =
      some ⟨pidY, defaultPlayerName, -1, 0, 1⟩ ∧ ((-1 : ℤ) ≠ 0) :=
  ⟨by decide, by decide⟩

/-- C7 witness: the amended implicit-creation behavior at a concrete fresh
submission with score 9. -/
theorem updatePlayerScore_implicit_create_check :
    (getPlayer ([] : DB) pidY = none) ∧
    ((updatePlayerScore ([] : DB) ([] : List GameScoreRow) pidY 9).2.2 =
       some ⟨pidY, defaultPlayerName, 9, max 0 9, 1⟩ ∧
     (updatePlayerScore ([] : DB) ([] : List GameScoreRow) pidY 9).2.1 = [⟨pidY, 9⟩]) :=
  ⟨rfl, updatePlayerScore_implicit_create [] [] pidY 9 rfl⟩

theorem bestScoreOf_step (db : DB) (pid : String) (score : Int) :
    bestScoreOf db pid ≤ bestScoreOf (updatePlayerScoreDb db pid score) pid := by
  unfold bestScoreOf
  cases hfind : getPlayer db pid with
  | none =>
      simp only [updatePlayerScoreDb, hfind, Option.isSome_none, List.map_cons]
      norm_num [getPlayer, List.find?_cons]
      split <;> omega
  | some r =>
      have hfind2 : db.find? (fun x => x.playerId == pid) = some r := hfind
      have hbeq0 := List.find?_some hfind2
      have hbeq : (r.playerId == pid) = true := hbeq0
      have hf : ∀ x : PlayerRow,
          ((fun x => if x.playerId == pid then
            { x with currentScore := score,
                     bestScore := if x.bestScore < score then score else x.bestScore,
                     gamesPlayed := x.gamesPlayed + 1 } else x) x).playerId = x.playerId := by
        intro x
        dsimp only
        split <;> rfl
      simp only [updatePlayerScoreDb, hfind, Option.isSome_some, if_true]
      have hpe : r.playerId = pid := by simpa using hbeq
      rw [getPlayer_map_upd db pid _ hf, hfind]
      simp [hpe, if_lt_max]

theorem runScores_ge (db : DB) (pid : String) (scores : List Int) :
    bestScoreOf db pid ≤ bestScoreOf (runScores db pid scores) pid := by
  induction scores generalizing db with
  | nil => exact le_refl _
  | cons a l ih =>
      exact le_trans (bestScoreOf_step db pid a) (ih (updatePlayerScoreDb db pid a))

/-- C10: for an existing player, a score submission overwrites CurrentScore
with the submitted score, sets BestScore to max(previous BestScore, score)
(hence BestScore never decreases over any sequence of submissions), bumps
GamesPlayed by exactly one, and inserts exactly one history row. -/
theorem updatePlayerScore_existing_aggregates (db : DB) (hist : List GameScoreRow)
    (pid : String) (score : Int) (row : PlayerRow) (hfind : getPlayer db pid = some row) :
    (updatePlayerScore db hist pid score).2.2 =
      some { row with currentScore := score, bestScore := max row.bestScore score,
                      gamesPlayed := row.gamesPlayed + 1 } ∧
    row.bestScore ≤ max row.bestScore score ∧
    (updatePlayerScore db hist pid score).2.1 = ⟨pid, score⟩ :: hist ∧
    ∀ scores : List Int, bestScoreOf db pid ≤ bestScoreOf (runScores db pid scores) pid := by
  refine ⟨?_, le_max_left _ _, rfl, fun scores => runScores_ge db pid scores⟩
  have hfind2 : db.find? (fun x => x.playerId == pid) = some row := hfind
  have hbeq0 := List.find?_some hfind2
  have hbeq : (row.playerId == pid) = true := hbeq0
  have hf : ∀ x : PlayerRow,
      ((fun x => if x.playerId == pid then
        { x with currentScore := score,
                 bestScore := if x.bestScore < score then score else x.bestScore,
                 gamesPlayed := x.gamesPlayed + 1 } else x) x).playerId = x.playerId := by
    intro x
    dsimp only
    split <;> rfl
  simp only [updatePlayerScore, updatePlayerScoreDb, hfind, Option.isSome_some, if_true]
  have hpe : row.playerId = pid := by simpa using hbeq
  rw [getPlayer_map_upd db pid _ hf, hfind]
  simp [hpe, if_lt_max]

/-- Player id of the C10 scenario. -/
def pidZ : String := "Z"

/-- The pre-existing aggregated row of the C10 scenario. -/
def exRow10 : PlayerRow := ⟨pidZ, nameAlice, 3, 7, 2⟩

/-- A one-player table holding the C10 row. -/
def exDb10 : DB := [exRow10]

/-- History rows before the C10 submission. -/
def exHist10 : List GameScoreRow := [⟨pidZ, 7⟩]

/-- C10 witness: the aggregate update applied at a concrete submission of 5
against best 7. -/
theorem updatePlayerScore_existing_aggregates_check :
    (getPlayer exDb10 pidZ = some exRow10) ∧
    ((updatePlayerScore exDb10 exHist10 pidZ 5).2.2 =
       some { exRow10 with currentScore := 5, bestScore := max exRow10.bestScore 5,
                           gamesPlayed := exRow10.gamesPlayed + 1 } ∧
     exRow10.bestScore ≤ max exRow10.bestScore 5 ∧
     (updatePlayerScore exDb10 exHist10 pidZ 5).2.1 = ⟨pidZ, 5⟩ :: exHist10 ∧
     ∀ scores : List Int,
       bestScoreOf exDb10 pidZ ≤ bestScoreOf (runScores exDb10 pidZ scores) pidZ) :=
  ⟨by decide, updatePlayerScore_existing_aggregates exDb10 exHist10 pidZ 5 exRow10 (by decide)⟩

end TennisGame
